import Mathlib

/-!
Shallow embedding of the user/social-graph repository
(`src/repositories/user.py`) of the SocialNetwork backend.

The MongoDB document store is modelled as explicit lists of records:
`find_one` is the first list element matching the key, `find_one_and_update`
rewrites the first matching record, `$push` appends to a list field,
`$pull` removes every equal element, `$inc` adds to an integer field and
`find_one_and_delete` drops the first matching record.  GridFS blob storage
for profile images is a list of opaque reference strings.  Every repository
method becomes a pure function threading the database state.
-/

namespace SocialNetwork

/-- The `DEFAULT_PROFILE_IMAGE` setting: an opaque well-known placeholder
reference coming from the application configuration. -/
def DEFAULT_PROFILE_IMAGE : String := "default_profile_image"

/-- A stored user document of the `users` collection.  Optional profile
fields start out absent, matching a freshly registered account. -/
structure UserR where
  id : String
  username : String
  hashed_password : String
  name : Option String := none
  surname : Option String := none
  bio : Option String := none
  age : Option String := none
  gender : Option String := none
  email : Option String := none
  profile_image : String := DEFAULT_PROFILE_IMAGE
  subscriptions : List String := []
  subscribers : List String := []
  liked_posts : List String := []
  created_at : Nat := 0
  updated_at : Nat := 0
  deriving DecidableEq

/-- A stored post document of the `posts` collection, restricted to the
fields the user repository touches (`_id`, the `likes` counter) plus the
embedded comment list, kept so frame theorems can speak about comments. -/
structure PostR where
  id : String
  likes : Int := 0
  comments : List String := []
  deriving DecidableEq

/-- An HTTP error as raised or returned by the repository
(`HTTPException(status_code, detail)`). -/
structure HttpError where
  status : Nat
  detail : String
  deriving DecidableEq

/-- The whole persistent state: the `users` and `posts` collections and the
`imgs_profile` GridFS namespace (a set of blob references). -/
structure DB where
  users : List UserR := []
  posts : List PostR := []
  imgs_profile : List String := []
  deriving DecidableEq

/-- `find_one({"_id": i})`: the first record whose key equals `i`. -/
def find_one (key : α → String) (l : List α) (i : String) : Option α :=
  l.find? (fun x => key x == i)

/-- `find_one_and_update({"_id": i}, ...)`: rewrite the first record whose
key equals `i` by `f`; no match leaves the collection unchanged. -/
def update_first (key : α → String) (l : List α) (i : String) (f : α → α) : List α :=
  match l with
  | [] => []
  | x :: rest => if key x == i then f x :: rest else x :: update_first key rest i f

/-- `find_one_and_delete({"_id": i})`: drop the first record whose key
equals `i`. -/
def delete_first (key : α → String) (l : List α) (i : String) : List α :=
  match l with
  | [] => []
  | x :: rest => if key x == i then rest else x :: delete_first key rest i

/-- Lookup in the `users` collection by `_id`. -/
def find_one_user (l : List UserR) (i : String) : Option UserR :=
  find_one UserR.id l i

/-- Lookup in the `posts` collection by `_id`. -/
def find_one_post (l : List PostR) (i : String) : Option PostR :=
  find_one PostR.id l i

set_option linter.unusedVariables false in
/-- `UserRepository.get_all(limit, skip)`: the source calls
`find(limit=limit)` — the `skip` argument is accepted but never used. -/
def get_all (db : DB) (limit : Nat) (skip : Nat) : List UserR :=
  db.users.take limit

/-- `UserRepository.get_by_id`: the found user, or a raised 404. -/
def get_by_id (db : DB) (i : String) : Except HttpError UserR :=
  match find_one_user db.users i with
  | some user => .ok user
  | none => .error { status := 404, detail := "User with ID " ++ i ++ " not found" }

/-- `UserRepository.create`: build the user with the default profile image
and `utcnow` timestamps, `insert_one` it (the store assigns the fresh id
`new_id`), and return the record found back by that id. -/
def create (db : DB) (now : Nat) (new_id : String) (username hashed_password : String) :
    DB × Option UserR :=
  let user : UserR :=
    { id := new_id, username := username, hashed_password := hashed_password,
      profile_image := DEFAULT_PROFILE_IMAGE, created_at := now, updated_at := now }
  let users1 := db.users ++ [user]
  ({ db with users := users1 }, find_one_user users1 new_id)

/-- The `UserIn` input model carried by `update`. -/
structure UserIn where
  name : Option String := none
  surname : Option String := none
  bio : Option String := none
  age : Option Int := none
  gender : Option String := none
  email : Option String := none
  deriving DecidableEq

/-- Python `str(...)` applied to the optional `age`: `str(None)` is the
string `"None"`. -/
def pyStr : Option Int → String
  | none => "None"
  | some n => toString n

/-- `UserRepository.update`: `$set` the six profile fields on the matched
user (age passes through `str`), then return the freshly found record. -/
def update (db : DB) (user_id : String) (u : UserIn) : DB × Option UserR :=
  let users1 := update_first UserR.id db.users user_id (fun x =>
    { x with name := u.name, surname := u.surname, bio := u.bio,
             age := some (pyStr u.age), gender := u.gender, email := u.email })
  ({ db with users := users1 }, find_one_user users1 user_id)

/-- `UserRepository.update_profile_image`: load the user (Python would
raise a `TypeError` on a missing user — modelled as `none`); when the
current image is not the default placeholder, delete its blob from GridFS;
then `$set` the new reference and return the freshly found record. -/
def update_profile_image (db : DB) (user_id file_id : String) :
    Option (DB × Option UserR) :=
  match find_one_user db.users user_id with
  | none => none
  | some user =>
    let db1 :=
      if user.profile_image != DEFAULT_PROFILE_IMAGE then
        { db with imgs_profile := db.imgs_profile.filter (fun b => b != user.profile_image) }
      else db
    let users2 := update_first UserR.id db1.users user_id (fun x => { x with profile_image := file_id })
    some ({ db1 with users := users2 }, find_one_user users2 user_id)

/-- `UserRepository.update_username`. -/
def update_username (db : DB) (user_id new_username : String) : DB × Option UserR :=
  let users1 := update_first UserR.id db.users user_id (fun x => { x with username := new_username })
  ({ db with users := users1 }, find_one_user users1 user_id)

/-- `UserRepository.update_bio`. -/
def update_bio (db : DB) (user_id new_bio : String) : DB × Option UserR :=
  let users1 := update_first UserR.id db.users user_id (fun x => { x with bio := some new_bio })
  ({ db with users := users1 }, find_one_user users1 user_id)

/-- `UserRepository.update_name_surname`. -/
def update_name_surname (db : DB) (user_id new_name new_surname : String) : DB × Option UserR :=
  let users1 := update_first UserR.id db.users user_id (fun x =>
    { x with name := some new_name, surname := some new_surname })
  ({ db with users := users1 }, find_one_user users1 user_id)

/-- `UserRepository.delete`: `find_one_and_delete` on the `users`
collection only. -/
def delete (db : DB) (user_id : String) : DB :=
  { db with users := delete_first UserR.id db.users user_id }

/-- `UserRepository.subscribe`: `$push` the target onto the subscriber's
`subscriptions`, then `$push` the subscriber onto the target's
`subscribers`. -/
def subscribe (db : DB) (user_id sub_user_id : String) : DB :=
  let users1 := update_first UserR.id db.users user_id (fun x =>
    { x with subscriptions := x.subscriptions ++ [sub_user_id] })
  let users2 := update_first UserR.id users1 sub_user_id (fun x =>
    { x with subscribers := x.subscribers ++ [user_id] })
  { db with users := users2 }

/-- `UserRepository.unsubsribe` (source spelling): `$pull` removes every
occurrence of the value from both sequences. -/
def unsubsribe (db : DB) (user_id sub_user_id : String) : DB :=
  let users1 := update_first UserR.id db.users user_id (fun x =>
    { x with subscriptions := x.subscriptions.filter (fun i => i != sub_user_id) })
  let users2 := update_first UserR.id users1 sub_user_id (fun x =>
    { x with subscribers := x.subscribers.filter (fun i => i != user_id) })
  { db with users := users2 }

/-- Dictionary access `user[what_need]` restricted to the two sequence
fields the helper is called with; any other key is a Python `KeyError`. -/
def user_list_field (u : UserR) (what_need : String) : Option (List String) :=
  if what_need == "subscribers" then some u.subscribers
  else if what_need == "subscriptions" then some u.subscriptions
  else none

/-- `UserRepository.__get_sub_helper__`: load the user, then resolve each
id of the chosen sequence with `find_one` — an unresolvable id contributes
`None` to the result, in place.  A missing base user is a Python
`TypeError`, modelled as `none`. -/
def get_sub_helper (db : DB) (user_id what_need : String) : Option (List (Option UserR)) :=
  match find_one_user db.users user_id with
  | none => none
  | some user =>
    match user_list_field user what_need with
    | none => none
    | some ids => some (ids.map (fun i => find_one_user db.users i))

/-- `UserRepository.get_subscribers`. -/
def get_subscribers (db : DB) (user_id : String) : Option (List (Option UserR)) :=
  get_sub_helper db user_id "subscribers"

/-- `UserRepository.get_subscriptions`. -/
def get_subscriptions (db : DB) (user_id : String) : Option (List (Option UserR)) :=
  get_sub_helper db user_id "subscriptions"

/-- `UserRepository.check_username`: whether some stored user carries the
username. -/
def check_username (db : DB) (username : String) : Bool :=
  (db.users.find? (fun u => u.username == username)).isSome

/-- `UserRepository.get_by_username`: plain `find_one` — returns `None`
when absent, never raises. -/
def get_by_username (db : DB) (username : String) : Option UserR :=
  db.users.find? (fun u => u.username == username)

/-- `UserRepository.signup`: on a taken username return (not raise) a 401
"Account already exists" error; otherwise hash the password (the hash is an
external collaborator, passed in) and `create` the user. -/
def signup (db : DB) (hash : String → String) (now : Nat) (new_id : String)
    (username password : String) : DB × Except HttpError UserR :=
  if check_username db username then
    (db, .error { status := 401, detail := "Account already exists" })
  else
    match create db now new_id username (hash password) with
    | (db1, some u) => (db1, .ok u)
    | (db1, none) => (db1, .error { status := 401, detail := "Failed to signup user" })

/-- `UserRepository.set_like`: `$push` the post onto the user's
`liked_posts`, `$inc` the post's `likes` by `1`, return the freshly found
post. -/
def set_like (db : DB) (post_id user_id : String) : DB × Option PostR :=
  let users1 := update_first UserR.id db.users user_id (fun x =>
    { x with liked_posts := x.liked_posts ++ [post_id] })
  let posts1 := update_first PostR.id db.posts post_id (fun p =>
    { p with likes := p.likes + 1 })
  ({ db with users := users1, posts := posts1 }, find_one_post posts1 post_id)

/-- `UserRepository.unset_like`: `$pull` every occurrence of the post from
the user's `liked_posts`, `$inc` the post's `likes` by `-1`
(unconditionally), return the freshly found post. -/
def unset_like (db : DB) (post_id user_id : String) : DB × Option PostR :=
  let users1 := update_first UserR.id db.users user_id (fun x =>
    { x with liked_posts := x.liked_posts.filter (fun i => i != post_id) })
  let posts1 := update_first PostR.id db.posts post_id (fun p =>
    { p with likes := p.likes + (-1) })
  ({ db with users := users1, posts := posts1 }, find_one_post posts1 post_id)

/-- Modelled from the spec: the `Conflict` error kind of the error-handling
design, which maps to the 409-equivalent response category (the spec lists
`404/401/403/409` as the stable categories of `NotFound / Unauthorized /
Forbidden / Conflict`). -/
def isConflict (e : HttpError) : Prop := e.status = 409

/-! ### Concrete stores used by witnesses and counterexamples -/

def aW1 : UserR := { id := "a", username := "alice", hashed_password := "h" }

def bW1 : UserR := { id := "b", username := "bob", hashed_password := "h" }

def dbW1 : DB := { users := [aW1, bW1] }

def uC2 : UserR := { id := "u1", username := "ua", hashed_password := "h", liked_posts := ["p1"] }

def pC2 : PostR := { id := "p1", likes := 1 }

def dbC2 : DB := { users := [uC2], posts := [pC2] }

def uW2 : UserR := { id := "u1", username := "ua", hashed_password := "h" }

def pW2 : PostR := { id := "p1", likes := 5 }

def dbW2 : DB := { users := [uW2], posts := [pW2] }

def uC3 : UserR := { id := "u1", username := "alice", hashed_password := "h" }

def dbC3 : DB := { users := [uC3] }

def hashC3 : String → String := fun s => s

def dbW3 : DB := { users := [uC3] }

def hashW3 : String → String := fun s => s ++ "#"

def dbW4 : DB := { users := [{ id := "u1", username := "alice", hashed_password := "h" }] }

def dbC4 : DB := { users := [{ id := "u1", username := "alice", hashed_password := "h" }] }

def uW5 : UserR := { id := "u1", username := "ua", hashed_password := "h", profile_image := "img1" }

def dbW5 : DB := { users := [uW5], imgs_profile := ["img1", "img2"] }

def u1C6 : UserR := { id := "u1", username := "ua", hashed_password := "h" }

def u2C6 : UserR := { id := "u2", username := "ub", hashed_password := "h" }

def dbC6 : DB := { users := [u1C6, u2C6] }

def uW7 : UserR :=
  { id := "u1", username := "ua", hashed_password := "h", bio := some "old bio",
    subscriptions := ["x"], subscribers := ["y"], liked_posts := ["p9"],
    created_at := 3, updated_at := 4 }

def dbW7 : DB := { users := [uW7] }

def uinW7 : UserIn := { name := some "n", age := some 21 }

def uC8 : UserR := { id := "u1", username := "ua", hashed_password := "h" }

def pC8 : PostR := { id := "p1", likes := 0 }

def dbC8 : DB := { users := [uC8], posts := [pC8] }

def pW8 : PostR := { id := "p1", likes := 2 }

def dbW8 : DB := { users := [uC8], posts := [pW8] }

def dbW9 : DB := { users := [aW1, bW1], posts := [pW2], imgs_profile := ["img1"] }

def aW10 : UserR :=
  { id := "a", username := "alice", hashed_password := "h",
    subscriptions := ["ghost", "b"], subscribers := ["ghost2"] }

def bW10 : UserR := { id := "b", username := "bob", hashed_password := "h" }

def dbW10 : DB := { users := [aW10, bW10] }

/-! ### Generic store lemmas -/

theorem find_one_cons (key : α → String) (x : α) (rest : List α) (i : String) :
    find_one key (x :: rest) i =
      if key x == i then some x else find_one key rest i := by
  simp only [find_one, List.find?]
  cases h : (key x == i) <;> simp [h]

theorem find_one_key {key : α → String} {l : List α} {i : String} {x : α}
    (h : find_one key l i = some x) : key x = i := by
  simp only [find_one] at h
  have hp := List.find?_some h
  exact eq_of_beq hp

theorem update_first_cons (key : α → String) (x : α) (rest : List α) (i : String) (f : α → α) :
    update_first key (x :: rest) i f =
      if key x == i then f x :: rest else x :: update_first key rest i f := rfl

theorem delete_first_cons (key : α → String) (x : α) (rest : List α) (i : String) :
    delete_first key (x :: rest) i =
      if key x == i then rest else x :: delete_first key rest i := rfl

theorem find_one_update_first_self (key : α → String) (l : List α) (i : String) (f : α → α)
    (hf : ∀ x, key (f x) = key x) :
    find_one key (update_first key l i f) i = (find_one key l i).map f := by
  induction l with
  | nil => rfl
  | cons x rest ih =>
    by_cases h : (key x == i) = true
    · simp [update_first_cons, find_one_cons, h, hf]
    · simp [update_first_cons, find_one_cons, h, ih]

theorem find_one_update_first_ne (key : α → String) (l : List α) (i j : String) (f : α → α)
    (hne : j ≠ i) (hf : ∀ x, key (f x) = key x) :
    find_one key (update_first key l i f) j = find_one key l j := by
  induction l with
  | nil => rfl
  | cons x rest ih =>
    by_cases h : (key x == i) = true
    · have hkx : key x = i := eq_of_beq h
      have hxj : (key x == j) = false := by
        rw [hkx, beq_eq_false_iff_ne]
        exact Ne.symm hne
      simp [update_first_cons, find_one_cons, h, hf, hxj]
    · simp [update_first_cons, find_one_cons, h, ih]

theorem update_first_update_first_self (key : α → String) (l : List α) (i : String)
    (f g : α → α) (hf : ∀ x, key (f x) = key x) :
    update_first key (update_first key l i f) i g =
      update_first key l i (fun x => g (f x)) := by
  induction l with
  | nil => rfl
  | cons x rest ih =>
    by_cases h : (key x == i) = true
    · simp [update_first_cons, h, hf]
    · simp [update_first_cons, h, ih]

theorem update_first_of_find_none (key : α → String) (l : List α) (i : String) (f : α → α)
    (h : find_one key l i = none) : update_first key l i f = l := by
  induction l with
  | nil => rfl
  | cons x rest ih =>
    rw [find_one_cons] at h
    by_cases hx : key x == i
    · simp [hx] at h
    · rw [if_neg hx] at h
      rw [update_first_cons, if_neg hx, ih h]

theorem update_first_of_fix (key : α → String) (l : List α) (i : String) (f : α → α)
    (x : α) (h : find_one key l i = some x) (hx : f x = x) : update_first key l i f = l := by
  induction l with
  | nil => simp [find_one] at h
  | cons y rest ih =>
    rw [find_one_cons] at h
    by_cases hy : key y == i
    · rw [if_pos hy] at h
      rw [update_first_cons, if_pos hy]
      rw [show y = x from Option.some.inj h] at *
      rw [hx]
    · rw [if_neg hy] at h
      rw [update_first_cons, if_neg hy, ih h]

theorem find_one_append_of_none (key : α → String) (l l2 : List α) (i : String)
    (h : find_one key l i = none) :
    find_one key (l ++ l2) i = find_one key l2 i := by
  induction l with
  | nil => rfl
  | cons x rest ih =>
    rw [find_one_cons] at h
    by_cases hx : key x == i
    · simp [hx] at h
    · rw [if_neg hx] at h
      rw [List.cons_append, find_one_cons, if_neg hx, ih h]

theorem find_one_none_of_fresh (key : α → String) (l : List α) (i : String)
    (h : ∀ x ∈ l, key x ≠ i) : find_one key l i = none := by
  induction l with
  | nil => rfl
  | cons x rest ih =>
    rw [find_one_cons]
    have hx : (key x == i) = false := by
      simp [h x (List.mem_cons_self x rest)]
    rw [hx]
    simp only [Bool.false_eq_true, if_false]
    exact ih (fun y hy => h y (List.mem_cons_of_mem x hy))

theorem delete_first_eq_filter (key : α → String) (l : List α) (i : String)
    (h : (l.map key).Nodup) :
    delete_first key l i = l.filter (fun x => key x != i) := by
  induction l with
  | nil => rfl
  | cons x rest ih =>
    rw [List.map_cons, List.nodup_cons] at h
    by_cases hx : (key x == i) = true
    · have hkx : key x = i := eq_of_beq hx
      have hfilter : rest.filter (fun y => key y != i) = rest := by
        rw [List.filter_eq_self]
        intro y hy
        have hne : key y ≠ i := by
          intro hc
          exact h.1 (hkx ▸ hc ▸ List.mem_map_of_mem key hy)
        simp [hne]
      simp [delete_first_cons, hx, List.filter_cons, hkx, hfilter]
    · have hne2 : (key x != i) = true := by
        rw [bne_iff_ne]
        intro hc
        exact hx (beq_iff_eq.mpr hc)
      simp [delete_first_cons, hx, List.filter_cons, hne2, ih h.2]

theorem find_one_user_key {l : List UserR} {i : String} {x : UserR}
    (h : find_one_user l i = some x) : x.id = i :=
  find_one_key h

theorem find_one_post_key {l : List PostR} {i : String} {x : PostR}
    (h : find_one_post l i = some x) : x.id = i :=
  find_one_key h

theorem user_list_field_subscriptions (u : UserR) :
    user_list_field u "subscriptions" = some u.subscriptions := by
  simp [user_list_field]

theorem user_list_field_subscribers (u : UserR) :
    user_list_field u "subscribers" = some u.subscribers := rfl

/-! ### Subscription graph lemmas -/

theorem proj_find_double_update_fst (key : α → String) (l : List α) (A B : String)
    (f g : α → α) (hf : ∀ x, key (f x) = key x) (hg : ∀ x, key (g x) = key x)
    (proj : α → β) (hproj : ∀ x, proj (g x) = proj x)
    (x : α) (h : find_one key l A = some x) :
    ∃ v, find_one key (update_first key (update_first key l A f) B g) A = some v ∧
      proj v = proj (f x) := by
  by_cases hAB : B = A
  · subst hAB
    rw [update_first_update_first_self key l B f g hf,
        find_one_update_first_self key l B _ (fun y => (hg (f y)).trans (hf y)), h]
    exact ⟨g (f x), rfl, hproj (f x)⟩
  · rw [find_one_update_first_ne key _ B A g (Ne.symm hAB) hg,
        find_one_update_first_self key l A f hf, h]
    exact ⟨f x, rfl, rfl⟩

theorem proj_find_double_update_snd (key : α → String) (l : List α) (A B : String)
    (f g : α → α) (hf : ∀ x, key (f x) = key x) (hg : ∀ x, key (g x) = key x)
    (proj : α → β) (hproj : ∀ x, proj (f x) = proj x)
    (hgproj : ∀ y z, proj y = proj z → proj (g y) = proj (g z))
    (x : α) (h : find_one key l B = some x) :
    ∃ v, find_one key (update_first key (update_first key l A f) B g) B = some v ∧
      proj v = proj (g x) := by
  by_cases hAB : A = B
  · subst hAB
    rw [update_first_update_first_self key l A f g hf,
        find_one_update_first_self key l A _ (fun y => (hg (f y)).trans (hf y)), h]
    exact ⟨g (f x), rfl, hgproj (f x) x (hproj x)⟩
  · rw [find_one_update_first_self key (update_first key l A f) B g hg,
        find_one_update_first_ne key l A B f (Ne.symm hAB) hf, h]
    exact ⟨g x, rfl, rfl⟩

theorem subscribe_find_fst (db : DB) (A B : String) (uA : UserR)
    (hA : find_one_user db.users A = some uA) :
    ∃ v, find_one_user (subscribe db A B).users A = some v ∧
      v.subscriptions = uA.subscriptions ++ [B] := by
  simp only [find_one_user] at *
  simp only [subscribe]
  obtain ⟨v, hv, hp⟩ := proj_find_double_update_fst UserR.id db.users A B
    (fun x => { x with subscriptions := x.subscriptions ++ [B] })
    (fun x => { x with subscribers := x.subscribers ++ [A] })
    (fun x => rfl) (fun x => rfl) UserR.subscriptions (fun x => rfl) uA hA
  exact ⟨v, hv, hp⟩

theorem subscribe_find_snd (db : DB) (A B : String) (uB : UserR)
    (hB : find_one_user db.users B = some uB) :
    ∃ v, find_one_user (subscribe db A B).users B = some v ∧
      v.subscribers = uB.subscribers ++ [A] := by
  simp only [find_one_user] at *
  simp only [subscribe]
  obtain ⟨v, hv, hp⟩ := proj_find_double_update_snd UserR.id db.users A B
    (fun x => { x with subscriptions := x.subscriptions ++ [B] })
    (fun x => { x with subscribers := x.subscribers ++ [A] })
    (fun x => rfl) (fun x => rfl) UserR.subscribers (fun x => rfl)
    (fun y z hyz => by
      show y.subscribers ++ [A] = z.subscribers ++ [A]
      rw [hyz]) uB hB
  exact ⟨v, hv, hp⟩

theorem unsubsribe_find_fst (db : DB) (A B : String) (w : UserR)
    (hA : find_one_user db.users A = some w) :
    ∃ v, find_one_user (unsubsribe db A B).users A = some v ∧
      v.subscriptions = w.subscriptions.filter (fun i => i != B) := by
  simp only [find_one_user] at *
  simp only [unsubsribe]
  obtain ⟨v, hv, hp⟩ := proj_find_double_update_fst UserR.id db.users A B
    (fun x => { x with subscriptions := x.subscriptions.filter (fun i => i != B) })
    (fun x => { x with subscribers := x.subscribers.filter (fun i => i != A) })
    (fun x => rfl) (fun x => rfl) UserR.subscriptions (fun x => rfl) w hA
  exact ⟨v, hv, hp⟩

theorem unsubsribe_find_snd (db : DB) (A B : String) (w : UserR)
    (hB : find_one_user db.users B = some w) :
    ∃ v, find_one_user (unsubsribe db A B).users B = some v ∧
      v.subscribers = w.subscribers.filter (fun i => i != A) := by
  simp only [find_one_user] at *
  simp only [unsubsribe]
  obtain ⟨v, hv, hp⟩ := proj_find_double_update_snd UserR.id db.users A B
    (fun x => { x with subscriptions := x.subscriptions.filter (fun i => i != B) })
    (fun x => { x with subscribers := x.subscribers.filter (fun i => i != A) })
    (fun x => rfl) (fun x => rfl) UserR.subscribers (fun x => rfl)
    (fun y z hyz => by
      show y.subscribers.filter (fun i => i != A) = z.subscribers.filter (fun i => i != A)
      rw [hyz]) w hB
  exact ⟨v, hv, hp⟩

/-- Claim C1: for users A and B present in the store, after `subscribe(A,B)`
the result of `get_subscriptions(A)` contains B's record and
`get_subscribers(B)` contains A's record; after a subsequent
`unsubsribe(A,B)`, `get_subscriptions(A)` no longer contains any record
with id B and `get_subscribers(B)` no longer contains any record with id A:
both relationship fields are updated symmetrically by both operations. -/
theorem C1_subscribe_unsubscribe_thm (db : DB) (A B : String) (uA uB : UserR)
    (hA : find_one_user db.users A = some uA)
    (hB : find_one_user db.users B = some uB) :
    (∃ l, get_subscriptions (subscribe db A B) A = some l ∧
        ∃ u, some u ∈ l ∧ u.id = B) ∧
    (∃ l, get_subscribers (subscribe db A B) B = some l ∧
        ∃ u, some u ∈ l ∧ u.id = A) ∧
    (∃ l, get_subscriptions (unsubsribe (subscribe db A B) A B) A = some l ∧
        ∀ u, some u ∈ l → u.id ≠ B) ∧
    (∃ l, get_subscribers (unsubsribe (subscribe db A B) A B) B = some l ∧
        ∀ u, some u ∈ l → u.id ≠ A) := by
  obtain ⟨vA, hvA, hvAsubs⟩ := subscribe_find_fst db A B uA hA
  obtain ⟨vB, hvB, hvBsubr⟩ := subscribe_find_snd db A B uB hB
  obtain ⟨wA, hwA, hwAsubs⟩ := unsubsribe_find_fst (subscribe db A B) A B vA hvA
  obtain ⟨wB, hwB, hwBsubr⟩ := unsubsribe_find_snd (subscribe db A B) A B vB hvB
  refine ⟨?_, ?_, ?_, ?_⟩
  · refine ⟨vA.subscriptions.map (fun i => find_one_user (subscribe db A B).users i), ?_, ?_⟩
    · simp only [get_subscriptions, get_sub_helper, hvA, user_list_field_subscriptions]
    · have hmemB : B ∈ vA.subscriptions := by
        rw [hvAsubs]
        exact List.mem_append_right _ (by simp)
      have hmem := List.mem_map_of_mem (fun i => find_one_user (subscribe db A B).users i) hmemB
      simp only [hvB] at hmem
      exact ⟨vB, hmem, find_one_user_key hvB⟩
  · refine ⟨vB.subscribers.map (fun i => find_one_user (subscribe db A B).users i), ?_, ?_⟩
    · simp only [get_subscribers, get_sub_helper, hvB, user_list_field_subscribers]
    · have hmemA : A ∈ vB.subscribers := by
        rw [hvBsubr]
        exact List.mem_append_right _ (by simp)
      have hmem := List.mem_map_of_mem (fun i => find_one_user (subscribe db A B).users i) hmemA
      simp only [hvA] at hmem
      exact ⟨vA, hmem, find_one_user_key hvA⟩
  · refine ⟨wA.subscriptions.map
        (fun i => find_one_user (unsubsribe (subscribe db A B) A B).users i), ?_, ?_⟩
    · simp only [get_subscriptions, get_sub_helper, hwA, user_list_field_subscriptions]
    · intro u hu
      obtain ⟨i, hi, hfi⟩ := List.mem_map.mp hu
      rw [hwAsubs] at hi
      have hne : i ≠ B := by
        have := (List.mem_filter.mp hi).2
        exact bne_iff_ne.mp this
      rw [find_one_user_key hfi]
      exact hne
  · refine ⟨wB.subscribers.map
        (fun i => find_one_user (unsubsribe (subscribe db A B) A B).users i), ?_, ?_⟩
    · simp only [get_subscribers, get_sub_helper, hwB, user_list_field_subscribers]
    · intro u hu
      obtain ⟨i, hi, hfi⟩ := List.mem_map.mp hu
      rw [hwBsubr] at hi
      have hne : i ≠ A := by
        have := (List.mem_filter.mp hi).2
        exact bne_iff_ne.mp this
      rw [find_one_user_key hfi]
      exact hne

/-- Claim C1 witness: the theorem applied to a concrete store holding the
two users `a` and `b`. -/
theorem C1_subscribe_unsubscribe_wit :
    find_one_user dbW1.users "a" = some aW1 ∧
    find_one_user dbW1.users "b" = some bW1 ∧
    ((∃ l, get_subscriptions (subscribe dbW1 "a" "b") "a" = some l ∧
        ∃ u, some u ∈ l ∧ u.id = "b") ∧
     (∃ l, get_subscribers (subscribe dbW1 "a" "b") "b" = some l ∧
        ∃ u, some u ∈ l ∧ u.id = "a") ∧
     (∃ l, get_subscriptions (unsubsribe (subscribe dbW1 "a" "b") "a" "b") "a" = some l ∧
        ∀ u, some u ∈ l → u.id ≠ "b") ∧
     (∃ l, get_subscribers (unsubsribe (subscribe dbW1 "a" "b") "a" "b") "b" = some l ∧
        ∀ u, some u ∈ l → u.id ≠ "a")) :=
  ⟨by decide, by decide,
   C1_subscribe_unsubscribe_thm dbW1 "a" "b" aW1 bW1 (by decide) (by decide)⟩

/-- Claim C2 counterexample: when the user already has P in `liked_posts`
(here stored as `["p1"]`, counter 1), running `set_like` then `unset_like`
restores the counter to 1 but leaves `liked_posts` empty — `$push`
duplicated the entry and `$pull` removed both copies — so `unset_like` is
not the exact inverse of `set_like`: the prior `liked_posts` value is not
restored. -/
theorem C2_like_inverse_cex :
    (find_one_user (unset_like (set_like dbC2 "p1" "u1").1 "p1" "u1").1.users
        "u1").map UserR.liked_posts = some [] ∧
    (find_one_user dbC2.users "u1").map UserR.liked_posts = some ["p1"] ∧
    (find_one_post (unset_like (set_like dbC2 "p1" "u1").1 "p1" "u1").1.posts
        "p1").map PostR.likes = some 1 ∧
    (find_one_post dbC2.posts "p1").map PostR.likes = some 1 := by
  decide

/-- Claim C2 (amended): `set_like(P,U)` increments P's like counter by
exactly 1 and appends P to U's `liked_posts`; `unset_like(P,U)` decrements
the counter by exactly 1 and removes every occurrence of P from U's
`liked_posts`; running `set_like` then `unset_like` always restores P's
like counter to its prior value, and restores the entire store provided U
had not already liked P (P absent from `liked_posts`). -/
theorem C2_set_unset_like_thm (db : DB) (p u : String) (user : UserR) (post : PostR)
    (hu : find_one_user db.users u = some user)
    (hp : find_one_post db.posts p = some post) :
    (∃ user1, find_one_user (set_like db p u).1.users u = some user1 ∧
        user1.liked_posts = user.liked_posts ++ [p]) ∧
    (∃ post1, (set_like db p u).2 = some post1 ∧
        find_one_post (set_like db p u).1.posts p = some post1 ∧
        post1.likes = post.likes + 1) ∧
    (∃ user2, find_one_user (unset_like db p u).1.users u = some user2 ∧
        user2.liked_posts = user.liked_posts.filter (fun i => i != p)) ∧
    (∃ post2, (unset_like db p u).2 = some post2 ∧
        find_one_post (unset_like db p u).1.posts p = some post2 ∧
        post2.likes = post.likes - 1) ∧
    (∃ post3, find_one_post (unset_like (set_like db p u).1 p u).1.posts p = some post3 ∧
        post3.likes = post.likes) ∧
    (p ∉ user.liked_posts → unset_like (set_like db p u).1 p u = (db, some post)) := by
  simp only [find_one_user] at hu
  simp only [find_one_post] at hp
  refine ⟨?_, ?_, ?_, ?_, ?_, ?_⟩
  · refine ⟨{ user with liked_posts := user.liked_posts ++ [p] }, ?_, rfl⟩
    simp only [set_like, find_one_user]
    rw [find_one_update_first_self UserR.id db.users u
        (fun x => { x with liked_posts := x.liked_posts ++ [p] }) (fun x => rfl), hu]
    rfl
  · refine ⟨{ post with likes := post.likes + 1 }, ?_, ?_, rfl⟩
    · simp only [set_like, find_one_post]
      rw [find_one_update_first_self PostR.id db.posts p
          (fun x => { x with likes := x.likes + 1 }) (fun x => rfl), hp]
      rfl
    · simp only [set_like, find_one_post]
      rw [find_one_update_first_self PostR.id db.posts p
          (fun x => { x with likes := x.likes + 1 }) (fun x => rfl), hp]
      rfl
  · refine ⟨{ user with liked_posts := user.liked_posts.filter (fun i => i != p) }, ?_, rfl⟩
    simp only [unset_like, find_one_user]
    rw [find_one_update_first_self UserR.id db.users u
        (fun x => { x with liked_posts := x.liked_posts.filter (fun i => i != p) })
        (fun x => rfl), hu]
    rfl
  · refine ⟨{ post with likes := post.likes + (-1) }, ?_, ?_, ?_⟩
    · simp only [unset_like, find_one_post]
      rw [find_one_update_first_self PostR.id db.posts p
          (fun x => { x with likes := x.likes + (-1) }) (fun x => rfl), hp]
      rfl
    · simp only [unset_like, find_one_post]
      rw [find_one_update_first_self PostR.id db.posts p
          (fun x => { x with likes := x.likes + (-1) }) (fun x => rfl), hp]
      rfl
    · show post.likes + (-1) = post.likes - 1
      omega
  · refine ⟨{ post with likes := post.likes + 1 + (-1) }, ?_, ?_⟩
    · simp only [unset_like, set_like, find_one_post]
      rw [update_first_update_first_self PostR.id db.posts p
          (fun x => { x with likes := x.likes + 1 })
          (fun x => { x with likes := x.likes + (-1) })
          (fun x => rfl)]
      rw [find_one_update_first_self PostR.id db.posts p]
      · rw [hp]
        rfl
      · intro x
        rfl
    · show post.likes + 1 + (-1) = post.likes
      omega
  · intro hnp
    have husers : update_first UserR.id
        (update_first UserR.id db.users u
          (fun x => { x with liked_posts := x.liked_posts ++ [p] })) u
        (fun x => { x with liked_posts := x.liked_posts.filter (fun i => i != p) })
        = db.users := by
      rw [update_first_update_first_self UserR.id db.users u
          (fun x => { x with liked_posts := x.liked_posts ++ [p] })
          (fun x => { x with liked_posts := x.liked_posts.filter (fun i => i != p) })
          (fun x => rfl)]
      refine update_first_of_fix UserR.id db.users u _ user hu ?_
      have hl : (user.liked_posts ++ [p]).filter (fun i => i != p) = user.liked_posts := by
        rw [List.filter_append]
        have h1 : user.liked_posts.filter (fun i => i != p) = user.liked_posts := by
          rw [List.filter_eq_self]
          intro a ha
          exact bne_iff_ne.mpr (fun hc => hnp (hc ▸ ha))
        have h2 : ([p] : List String).filter (fun i => i != p) = [] := by simp
        rw [h1, h2, List.append_nil]
      show { user with liked_posts := (user.liked_posts ++ [p]).filter (fun i => i != p) } = user
      rw [hl]
    have hposts : update_first PostR.id
        (update_first PostR.id db.posts p (fun x => { x with likes := x.likes + 1 })) p
        (fun x => { x with likes := x.likes + (-1) })
        = db.posts := by
      rw [update_first_update_first_self PostR.id db.posts p
          (fun x => { x with likes := x.likes + 1 })
          (fun x => { x with likes := x.likes + (-1) })
          (fun x => rfl)]
      refine update_first_of_fix PostR.id db.posts p _ post hp ?_
      have hl : post.likes + 1 + (-1) = post.likes := by omega
      show { post with likes := post.likes + 1 + (-1) } = post
      rw [hl]
    simp only [unset_like, set_like, find_one_post]
    rw [husers, hposts, hp]

/-- Claim C2 witness: the amended theorem applied to a concrete store where
the user has not previously liked the post. -/
theorem C2_set_unset_like_wit :
    find_one_user dbW2.users "u1" = some uW2 ∧
    find_one_post dbW2.posts "p1" = some pW2 ∧
    "p1" ∉ uW2.liked_posts ∧
    ((∃ user1, find_one_user (set_like dbW2 "p1" "u1").1.users "u1" = some user1 ∧
        user1.liked_posts = uW2.liked_posts ++ ["p1"]) ∧
     (∃ post1, (set_like dbW2 "p1" "u1").2 = some post1 ∧
        find_one_post (set_like dbW2 "p1" "u1").1.posts "p1" = some post1 ∧
        post1.likes = pW2.likes + 1) ∧
     (∃ user2, find_one_user (unset_like dbW2 "p1" "u1").1.users "u1" = some user2 ∧
        user2.liked_posts = uW2.liked_posts.filter (fun i => i != "p1")) ∧
     (∃ post2, (unset_like dbW2 "p1" "u1").2 = some post2 ∧
        find_one_post (unset_like dbW2 "p1" "u1").1.posts "p1" = some post2 ∧
        post2.likes = pW2.likes - 1) ∧
     (∃ post3, find_one_post (unset_like (set_like dbW2 "p1" "u1").1 "p1" "u1").1.posts "p1" = some post3 ∧
        post3.likes = pW2.likes) ∧
     ("p1" ∉ uW2.liked_posts → unset_like (set_like dbW2 "p1" "u1").1 "p1" "u1" = (dbW2, some pW2))) :=
  ⟨by decide, by decide, by decide,
   C2_set_unset_like_thm dbW2 "p1" "u1" uW2 pW2 (by decide) (by decide)⟩

/-- Claim C3 counterexample: with username `alice` already stored, `signup`
returns an HTTP 401 error ("Account already exists"), which is not the
`Conflict` (409) error kind the claim requires. -/
theorem C3_signup_conflict_cex :
    (signup dbC3 hashC3 7 "u2" "alice" "pw").2 =
      Except.error { status := 401, detail := "Account already exists" } ∧
    ¬ isConflict { status := 401, detail := "Account already exists" } := by
  constructor
  · rfl
  · simp [isConflict]

/-- Claim C3 (amended): when the requested username already exists `signup`
fails with an HTTP 401 "Account already exists" error (not a 409 Conflict)
and creates no user record (the store is unchanged); otherwise it appends
exactly one new User record whose profile image is the default placeholder
and whose timestamps are the current time. -/
theorem C3_signup_thm (db : DB) (hash : String → String) (now : Nat)
    (new_id username password : String) :
    (check_username db username = true →
      signup db hash now new_id username password =
        (db, Except.error { status := 401, detail := "Account already exists" })) ∧
    (check_username db username = false → (∀ x ∈ db.users, x.id ≠ new_id) →
      ∃ v, signup db hash now new_id username password =
          ({ db with users := db.users ++ [v] }, Except.ok v) ∧
        v.profile_image = DEFAULT_PROFILE_IMAGE ∧ v.created_at = now ∧
        v.updated_at = now ∧ v.username = username ∧ v.id = new_id) := by
  constructor
  · intro h
    simp [signup, h]
  · intro h hfresh
    have hfind : find_one_user (db.users ++
        [({ id := new_id, username := username, hashed_password := hash password,
            profile_image := DEFAULT_PROFILE_IMAGE, created_at := now,
            updated_at := now } : UserR)]) new_id =
        some { id := new_id, username := username, hashed_password := hash password,
               profile_image := DEFAULT_PROFILE_IMAGE, created_at := now,
               updated_at := now } := by
      simp only [find_one_user]
      rw [find_one_append_of_none UserR.id db.users _ new_id
          (find_one_none_of_fresh UserR.id db.users new_id hfresh)]
      rw [find_one_cons]
      simp
    refine ⟨{ id := new_id, username := username, hashed_password := hash password,
              profile_image := DEFAULT_PROFILE_IMAGE, created_at := now,
              updated_at := now }, ?_, rfl, rfl, rfl, rfl, rfl⟩
    simp only [signup, h, Bool.false_eq_true, if_false, create, hfind]

/-- Claim C3 witness: the amended theorem applied to a concrete store with
user `alice` present (duplicate branch) and username `bob` absent with a
fresh id (creation branch). -/
theorem C3_signup_wit :
    (check_username dbW3 "alice" = true ∧
      signup dbW3 hashW3 7 "u9" "alice" "pw" =
        (dbW3, Except.error { status := 401, detail := "Account already exists" })) ∧
    (check_username dbW3 "bob" = false ∧ (∀ x ∈ dbW3.users, x.id ≠ "u9") ∧
      ∃ v, signup dbW3 hashW3 7 "u9" "bob" "pw" =
          ({ dbW3 with users := dbW3.users ++ [v] }, Except.ok v) ∧
        v.profile_image = DEFAULT_PROFILE_IMAGE ∧ v.created_at = 7 ∧
        v.updated_at = 7 ∧ v.username = "bob" ∧ v.id = "u9") :=
  ⟨⟨by decide, (C3_signup_thm dbW3 hashW3 7 "u9" "alice" "pw").1 (by decide)⟩,
   ⟨by decide, by decide,
    (C3_signup_thm dbW3 hashW3 7 "u9" "bob" "pw").2 (by decide) (by decide)⟩⟩

/-- Claim C4 counterexample: for a username absent from the store,
`get_by_username` returns `None` — a plain empty result, not a `NotFound`
failure as the claim states (only `get_by_id` raises 404). -/
theorem C4_get_by_username_none_cex :
    get_by_username dbC4 "bob" = none := by decide

/-- Claim C4 (amended): for an id absent from the store `get_by_id` fails
with a 404 NotFound error, but for an absent username `get_by_username`
returns `None` without failing. -/
theorem C4_lookup_absent_thm (db : DB) (i username : String) :
    (find_one_user db.users i = none →
      get_by_id db i = Except.error
        { status := 404, detail := "User with ID " ++ i ++ " not found" }) ∧
    ((∀ x ∈ db.users, x.username ≠ username) →
      get_by_username db username = none) := by
  constructor
  · intro h
    simp [get_by_id, h]
  · intro h
    simp only [get_by_username]
    rw [List.find?_eq_none]
    intro x hx
    simp [h x hx]

/-- Claim C4 witness: the amended theorem applied to a concrete store at an
absent id and an absent username. -/
theorem C4_lookup_absent_wit :
    (find_one_user dbW4.users "zzz" = none ∧
      get_by_id dbW4 "zzz" = Except.error
        { status := 404, detail := "User with ID " ++ "zzz" ++ " not found" }) ∧
    ((∀ x ∈ dbW4.users, x.username ≠ "bob") ∧ get_by_username dbW4 "bob" = none) :=
  ⟨⟨by decide, (C4_lookup_absent_thm dbW4 "zzz" "bob").1 (by decide)⟩,
   ⟨by decide, (C4_lookup_absent_thm dbW4 "zzz" "bob").2 (by decide)⟩⟩

/-- Claim C5: for a stored user, `update_profile_image` deletes the old
blob from GridFS exactly when the current image is not the default
placeholder (the blob reference is gone from `imgs_profile` afterwards;
with the placeholder no blob is deleted at all), and in both cases the
user's `profile_image` field afterwards equals the new reference, which is
also the record returned. -/
theorem C5_update_profile_image_thm (db : DB) (user_id file_id : String) (user : UserR)
    (h : find_one_user db.users user_id = some user) :
    ∃ db2 u2, update_profile_image db user_id file_id = some (db2, some u2) ∧
      u2.profile_image = file_id ∧
      find_one_user db2.users user_id = some u2 ∧
      (user.profile_image ≠ DEFAULT_PROFILE_IMAGE → user.profile_image ∉ db2.imgs_profile) ∧
      (user.profile_image = DEFAULT_PROFILE_IMAGE → db2.imgs_profile = db.imgs_profile) := by
  have hfind : ∀ l : List UserR, find_one UserR.id l user_id = some user →
      find_one_user (update_first UserR.id l user_id
        (fun x => { x with profile_image := file_id })) user_id =
      some { user with profile_image := file_id } := by
    intro l hl
    simp only [find_one_user]
    rw [find_one_update_first_self UserR.id l user_id
        (fun x => { x with profile_image := file_id }) (fun x => rfl), hl]
    rfl
  by_cases hd : user.profile_image = DEFAULT_PROFILE_IMAGE
  · have hcond : (user.profile_image != DEFAULT_PROFILE_IMAGE) = false := by
      simp [hd]
    refine ⟨{ db with users := update_first UserR.id db.users user_id (fun x => { x with profile_image := file_id }) },
      { user with profile_image := file_id }, ?_, rfl, ?_, ?_, ?_⟩
    · simp only [update_profile_image, h, hcond, Bool.false_eq_true, if_false]
      rw [hfind db.users h]
    · exact hfind db.users h
    · intro hc
      exact absurd hd hc
    · intro _
      rfl
  · have hcond : (user.profile_image != DEFAULT_PROFILE_IMAGE) = true :=
      bne_iff_ne.mpr hd
    refine ⟨{ users := update_first UserR.id db.users user_id (fun x => { x with profile_image := file_id }),
              posts := db.posts,
              imgs_profile := db.imgs_profile.filter (fun b => b != user.profile_image) },
      { user with profile_image := file_id }, ?_, rfl, ?_, ?_, ?_⟩
    · simp only [update_profile_image, h, hcond, if_true]
      rw [hfind db.users h]
    · exact hfind db.users h
    · intro _
      intro hmem
      have := (List.mem_filter.mp hmem).2
      simp at this
    · intro hc
      exact absurd hc hd

/-- Claim C5 witness: the theorem applied to a concrete store whose user
carries the non-default image `img1`, stored in the blob list. -/
theorem C5_update_profile_image_wit :
    find_one_user dbW5.users "u1" = some uW5 ∧
    (∃ db2 u2, update_profile_image dbW5 "u1" "img3" = some (db2, some u2) ∧
      u2.profile_image = "img3" ∧
      find_one_user db2.users "u1" = some u2 ∧
      (uW5.profile_image ≠ DEFAULT_PROFILE_IMAGE → uW5.profile_image ∉ db2.imgs_profile) ∧
      (uW5.profile_image = DEFAULT_PROFILE_IMAGE → db2.imgs_profile = dbW5.imgs_profile)) :=
  ⟨by decide, C5_update_profile_image_thm dbW5 "u1" "img3" uW5 (by decide)⟩

/-- Claim C6 (code bug): with two stored users, `get_all(limit := 1,
skip := 1)` returns the first stored user — the `skip` argument is ignored
by the source (`find(limit=limit)`), while the claim requires the first
`skip` users to be omitted, which would give the second user. -/
theorem C6_get_all_skip_ignored_thm :
    get_all dbC6 1 1 = [u1C6] ∧ u1C6 ≠ u2C6 := by decide

/-- Claim C7: `update(id, fields)` rewrites exactly the six profile fields
carried by `UserIn` (name, surname, bio, age via `str`, gender, email);
every other field of the record — id, username, password hash, profile
image, subscriptions, subscribers, liked posts, timestamps — keeps its
previous value, and the operation returns the post-update record. -/
theorem C7_update_partial_thm (db : DB) (user_id : String) (uin : UserIn) (user : UserR)
    (h : find_one_user db.users user_id = some user) :
    ∃ db2 u2, update db user_id uin = (db2, some u2) ∧
      u2.name = uin.name ∧ u2.surname = uin.surname ∧ u2.bio = uin.bio ∧
      u2.age = some (pyStr uin.age) ∧ u2.gender = uin.gender ∧ u2.email = uin.email ∧
      u2.id = user.id ∧ u2.username = user.username ∧
      u2.hashed_password = user.hashed_password ∧
      u2.profile_image = user.profile_image ∧
      u2.subscriptions = user.subscriptions ∧
      u2.subscribers = user.subscribers ∧
      u2.liked_posts = user.liked_posts ∧
      u2.created_at = user.created_at ∧
      u2.updated_at = user.updated_at ∧
      find_one_user db2.users user_id = some u2 := by
  have hfind : find_one_user (update_first UserR.id db.users user_id
      (fun x => { x with name := uin.name, surname := uin.surname, bio := uin.bio,
                         age := some (pyStr uin.age), gender := uin.gender,
                         email := uin.email })) user_id =
      some { user with name := uin.name, surname := uin.surname, bio := uin.bio,
                       age := some (pyStr uin.age), gender := uin.gender,
                       email := uin.email } := by
    have h2 : find_one UserR.id db.users user_id = some user := h
    simp only [find_one_user]
    rw [find_one_update_first_self UserR.id db.users user_id
        (fun x => { x with name := uin.name, surname := uin.surname, bio := uin.bio,
                           age := some (pyStr uin.age), gender := uin.gender,
                           email := uin.email }) (fun x => rfl), h2]
    rfl
  refine ⟨{ db with users := update_first UserR.id db.users user_id (fun x => { x with name := uin.name, surname := uin.surname, bio := uin.bio, age := some (pyStr uin.age), gender := uin.gender, email := uin.email }) },
    { user with name := uin.name, surname := uin.surname, bio := uin.bio,
                age := some (pyStr uin.age), gender := uin.gender,
                email := uin.email }, ?_,
    rfl, rfl, rfl, rfl, rfl, rfl, rfl, rfl, rfl, rfl, rfl, rfl, rfl, rfl, rfl, hfind⟩
  simp only [update, hfind]

/-- Claim C7 witness: the theorem applied to a concrete user whose
unrelated fields (subscriptions, liked posts, timestamps, bio history) are
populated. -/
theorem C7_update_partial_wit :
    find_one_user dbW7.users "u1" = some uW7 ∧
    (∃ db2 u2, update dbW7 "u1" uinW7 = (db2, some u2) ∧
      u2.name = uinW7.name ∧ u2.surname = uinW7.surname ∧ u2.bio = uinW7.bio ∧
      u2.age = some (pyStr uinW7.age) ∧ u2.gender = uinW7.gender ∧ u2.email = uinW7.email ∧
      u2.id = uW7.id ∧ u2.username = uW7.username ∧
      u2.hashed_password = uW7.hashed_password ∧
      u2.profile_image = uW7.profile_image ∧
      u2.subscriptions = uW7.subscriptions ∧
      u2.subscribers = uW7.subscribers ∧
      u2.liked_posts = uW7.liked_posts ∧
      u2.created_at = uW7.created_at ∧
      u2.updated_at = uW7.updated_at ∧
      find_one_user db2.users "u1" = some u2) :=
  ⟨by decide, C7_update_partial_thm dbW7 "u1" uinW7 uW7 (by decide)⟩

/-- Claim C8 counterexample: with the post's counter at 0 and the user
having never liked it, `unset_like` drives the counter to -1 — the counter
does become negative, because `$inc: -1` is applied unconditionally. -/
theorem C8_unset_like_negative_cex :
    (find_one_post (unset_like dbC8 "p1" "u1").1.posts "p1").map PostR.likes =
      some (-1) ∧ (-1 : Int) < 0 := by
  constructor
  · rfl
  · decide

/-- Claim C8 (amended): `unset_like` decrements the stored like counter by
exactly 1 unconditionally — there is no floor at zero, so calling it
without a prior `set_like` on a post with counter 0 leaves the counter at
-1. -/
theorem C8_unset_like_decrement_thm (db : DB) (p u : String) (post : PostR)
    (hp : find_one_post db.posts p = some post) :
    ∃ post2, (unset_like db p u).2 = some post2 ∧
      find_one_post (unset_like db p u).1.posts p = some post2 ∧
      post2.likes = post.likes - 1 := by
  have h2 : find_one PostR.id db.posts p = some post := hp
  refine ⟨{ post with likes := post.likes + (-1) }, ?_, ?_, ?_⟩
  · simp only [unset_like, find_one_post]
    rw [find_one_update_first_self PostR.id db.posts p
        (fun x => { x with likes := x.likes + (-1) }) (fun x => rfl), h2]
    rfl
  · simp only [unset_like, find_one_post]
    rw [find_one_update_first_self PostR.id db.posts p
        (fun x => { x with likes := x.likes + (-1) }) (fun x => rfl), h2]
    rfl
  · show post.likes + (-1) = post.likes - 1
    omega

/-- Claim C8 witness: the amended theorem applied to a concrete post with
counter 2; `unset_like` leaves it at 1. -/
theorem C8_unset_like_decrement_wit :
    find_one_post dbW8.posts "p1" = some pW8 ∧
    (∃ post2, (unset_like dbW8 "p1" "u1").2 = some post2 ∧
      find_one_post (unset_like dbW8 "p1" "u1").1.posts "p1" = some post2 ∧
      post2.likes = pW8.likes - 1) :=
  ⟨by decide, C8_unset_like_decrement_thm dbW8 "p1" "u1" pW8 (by decide)⟩

/-- Claim C9: `delete(id)` removes exactly the user record with that id and
nothing else — the posts collection (with its embedded comments and like
counters) and the blob store are untouched, and the users collection keeps
every record whose id differs, unchanged (no cascade into their
subscriptions, subscribers or liked-posts fields). -/
theorem C9_delete_frame_thm (db : DB) (user_id : String)
    (h : (db.users.map UserR.id).Nodup) :
    (delete db user_id).posts = db.posts ∧
    (delete db user_id).imgs_profile = db.imgs_profile ∧
    (delete db user_id).users = db.users.filter (fun x => x.id != user_id) := by
  refine ⟨rfl, rfl, ?_⟩
  simp only [delete]
  exact delete_first_eq_filter UserR.id db.users user_id h

/-- Claim C9 witness: the theorem applied to a concrete store holding two
users, a post and a blob; deleting user `a` keeps everything else. -/
theorem C9_delete_frame_wit :
    (dbW9.users.map UserR.id).Nodup ∧
    ((delete dbW9 "a").posts = dbW9.posts ∧
     (delete dbW9 "a").imgs_profile = dbW9.imgs_profile ∧
     (delete dbW9 "a").users = dbW9.users.filter (fun x => x.id != "a")) :=
  ⟨by decide, C9_delete_frame_thm dbW9 "a" (by decide)⟩

/-- Claim C10: for a stored user, `get_subscriptions` (resp.
`get_subscribers`) neither fails nor skips dangling entries: it returns a
list of the same length as the stored id sequence, whose k-th entry is
exactly the store lookup of the k-th stored id — `None` whenever that id no
longer resolves. -/
theorem C10_get_subs_dangling_thm (db : DB) (A : String) (uA : UserR)
    (h : find_one_user db.users A = some uA) :
    (∃ l, get_subscriptions db A = some l ∧
      l.length = uA.subscriptions.length ∧
      (∀ k : Nat, l[k]? = uA.subscriptions[k]?.map (fun i => find_one_user db.users i)) ∧
      (∀ i ∈ uA.subscriptions, find_one_user db.users i = none → none ∈ l)) ∧
    (∃ l, get_subscribers db A = some l ∧
      l.length = uA.subscribers.length ∧
      (∀ k : Nat, l[k]? = uA.subscribers[k]?.map (fun i => find_one_user db.users i)) ∧
      (∀ i ∈ uA.subscribers, find_one_user db.users i = none → none ∈ l)) := by
  constructor
  · refine ⟨uA.subscriptions.map (fun i => find_one_user db.users i), ?_, ?_, ?_, ?_⟩
    · simp only [get_subscriptions, get_sub_helper, h, user_list_field_subscriptions]
    · exact List.length_map _ _
    · intro k
      exact List.getElem?_map _ _ _
    · intro i hi hnone
      have hmem := List.mem_map_of_mem (fun i => find_one_user db.users i) hi
      simp only [hnone] at hmem
      exact hmem
  · refine ⟨uA.subscribers.map (fun i => find_one_user db.users i), ?_, ?_, ?_, ?_⟩
    · simp only [get_subscribers, get_sub_helper, h, user_list_field_subscribers]
    · exact List.length_map _ _
    · intro k
      exact List.getElem?_map _ _ _
    · intro i hi hnone
      have hmem := List.mem_map_of_mem (fun i => find_one_user db.users i) hi
      simp only [hnone] at hmem
      exact hmem

/-- Claim C10 witness: the theorem applied to a store where user `a` has a
dangling subscription id `ghost` and a dangling subscriber id `ghost2`. -/
theorem C10_get_subs_dangling_wit :
    find_one_user dbW10.users "a" = some aW10 ∧
    ((∃ l, get_subscriptions dbW10 "a" = some l ∧
      l.length = aW10.subscriptions.length ∧
      (∀ k : Nat, l[k]? = aW10.subscriptions[k]?.map (fun i => find_one_user dbW10.users i)) ∧
      (∀ i ∈ aW10.subscriptions, find_one_user dbW10.users i = none → none ∈ l)) ∧
     (∃ l, get_subscribers dbW10 "a" = some l ∧
      l.length = aW10.subscribers.length ∧
      (∀ k : Nat, l[k]? = aW10.subscribers[k]?.map (fun i => find_one_user dbW10.users i)) ∧
      (∀ i ∈ aW10.subscribers, find_one_user dbW10.users i = none → none ∈ l))) :=
  ⟨by decide, C10_get_subs_dangling_thm dbW10 "a" aW10 (by decide)⟩

end SocialNetwork
